import Mathlib

/-!
Shallow embedding of the `identity` package of RTradeLtd/ipfs-cluster
(`src/identity/identity.go`) and proofs about its specification.

A Go byte is modelled as `Fin 256` and a `[]byte` as a `List (Fin 256)`;
a nilable slice or interface is an `Option`.  Functions that return a Go
`error` as their last result are modelled with `Except String` (for
value-returning functions) or `Option String` (for receiver-mutating
methods, paired with the resulting receiver state).  External
collaborators (libp2p peer-id codec, private-key marshalling) are
parameters gathered in a `Collab` structure; the standard-library hex
and base64 codecs are implemented concretely below.
-/

namespace identity

/-- A Go byte. -/
abbrev Byte := Fin 256

/-- Contents of a Go byte slice. -/
abbrev Bytes := List Byte

/- ## Hex codec (Go `encoding/hex`) -/

/-- Value of one hex digit character, accepting `0-9`, `a-f`, `A-F`
as the Go function `hex.DecodeString` does. -/
def hexCharValNat (c : Char) : Option Nat :=
  if '0' ≤ c ∧ c ≤ '9' then some (c.toNat - '0'.toNat)
  else if 'a' ≤ c ∧ c ≤ 'f' then some (c.toNat - 'a'.toNat + 10)
  else if 'A' ≤ c ∧ c ≤ 'F' then some (c.toNat - 'A'.toNat + 10)
  else none

/-- Hex digit value as a `Fin 16`. -/
def hexCharVal (c : Char) : Option (Fin 16) :=
  match hexCharValNat c with
  | some n => if h : n < 16 then some ⟨n, h⟩ else none
  | none => none

/-- Go `hex.DecodeString`, over the character list of the input. -/
def hexDecodeChars : List Char → Except String Bytes
  | [] => .ok []
  | [_] => .error "encoding/hex: odd length hex string"
  | c1 :: c2 :: rest =>
    match hexCharVal c1, hexCharVal c2 with
    | some hi, some lo =>
      match hexDecodeChars rest with
      | .ok bs => .ok (⟨hi.val * 16 + lo.val, by have := hi.isLt; have := lo.isLt; omega⟩ :: bs)
      | .error e => .error e
    | _, _ => .error "encoding/hex: invalid byte"

/-- Go `hex.EncodeToString`, producing the character list (lower-case
digits, as `encoding/hex` emits). -/
def hexEncodeChars : Bytes → List Char
  | [] => []
  | b :: rest => Nat.digitChar (b.val / 16) :: Nat.digitChar (b.val % 16) :: hexEncodeChars rest

/-- Decoding one encoded hex digit recovers its value. -/
theorem hexCharVal_digitChar : ∀ d : Fin 16, hexCharVal (Nat.digitChar d.val) = some d := by
  decide

/-- Hex decoding inverts hex encoding. -/
theorem hexDecodeChars_hexEncodeChars (bs : Bytes) :
    hexDecodeChars (hexEncodeChars bs) = .ok bs := by
  induction bs with
  | nil => rfl
  | cons b rest ih =>
    have h1 : b.val / 16 < 16 := by have := b.isLt; omega
    have h2 : b.val % 16 < 16 := by omega
    have e1 := hexCharVal_digitChar ⟨b.val / 16, h1⟩
    have e2 := hexCharVal_digitChar ⟨b.val % 16, h2⟩
    simp only [hexEncodeChars, hexDecodeChars, e1, e2, ih]
    congr 2
    apply Fin.ext
    have hb := b.isLt
    simp
    omega

/-- Length of the hex encoding: two characters per byte. -/
theorem hexEncodeChars_length (bs : Bytes) :
    (hexEncodeChars bs).length = 2 * bs.length := by
  induction bs with
  | nil => rfl
  | cons b rest ih => simp [hexEncodeChars, ih]; omega

/- ## Cluster-secret codec (`DecodeClusterSecret`, `EncodeProtectorKey`) -/

/-- The error message produced by `DecodeClusterSecret` for a secret of
the wrong length. -/
def secretLenMsg (secretLen : Nat) : String :=
  s!"input secret is {secretLen} bytes, cluster secret should be 32"

/-- Go `DecodeClusterSecret`: hex-decode, then switch on the length.
Result `none` models the Go function returning a nil slice (length 0,
with a logged warning); `some secret` models a returned non-nil slice. -/
def DecodeClusterSecret (hexSecret : String) : Except String (Option Bytes) :=
  match hexDecodeChars hexSecret.data with
  | .error e => .error e
  | .ok secret =>
    if secret.length = 0 then .ok none
    else if secret.length = 32 then .ok (some secret)
    else .error (secretLenMsg secret.length)

/-- Go `EncodeProtectorKey`: hex-encode the byte slice (a nil slice,
modelled `none`, encodes like the empty slice). -/
def EncodeProtectorKey (secretBytes : Option Bytes) : String :=
  String.mk (hexEncodeChars (secretBytes.getD []))

/- ## Base64 codec (Go `encoding/base64` standard encoding, with padding) -/

/-- Index of a character in the standard base64 alphabet, as a `Nat`. -/
def charSextetNat (c : Char) : Option Nat :=
  if 'A' ≤ c ∧ c ≤ 'Z' then some (c.toNat - 'A'.toNat)
  else if 'a' ≤ c ∧ c ≤ 'z' then some (c.toNat - 'a'.toNat + 26)
  else if '0' ≤ c ∧ c ≤ '9' then some (c.toNat - '0'.toNat + 52)
  else if c = '+' then some 62
  else if c = '/' then some 63
  else none

/-- Index of a character in the standard base64 alphabet. -/
def charSextet (c : Char) : Option (Fin 64) :=
  match charSextetNat c with
  | some n => if h : n < 64 then some ⟨n, h⟩ else none
  | none => none

/-- Character of the standard base64 alphabet at a given index. -/
def sextetChar (s : Fin 64) : Char :=
  if s.val < 26 then Char.ofNat ('A'.toNat + s.val)
  else if s.val < 52 then Char.ofNat ('a'.toNat + (s.val - 26))
  else if s.val < 62 then Char.ofNat ('0'.toNat + (s.val - 52))
  else if s.val = 62 then '+'
  else '/'

/-- First output byte of a base64 quantum. -/
def b64Byte1 (s1 s2 : Fin 64) : Byte :=
  ⟨s1.val * 4 + s2.val / 16, by have := s1.isLt; have := s2.isLt; omega⟩

/-- Second output byte of a base64 quantum. -/
def b64Byte2 (s2 s3 : Fin 64) : Byte :=
  ⟨(s2.val % 16) * 16 + s3.val / 4, by have := s3.isLt; omega⟩

/-- Third output byte of a base64 quantum. -/
def b64Byte3 (s3 s4 : Fin 64) : Byte :=
  ⟨(s3.val % 4) * 64 + s4.val, by have := s4.isLt; omega⟩

/-- Go `base64.StdEncoding.DecodeString`, over the characters of the input:
quanta of four characters, `=` padding allowed only at the very end. -/
def b64DecodeChars : List Char → Except String Bytes
  | [] => .ok []
  | c1 :: c2 :: c3 :: c4 :: rest =>
    match charSextet c1, charSextet c2 with
    | some s1, some s2 =>
      if c3 = '=' then
        if c4 = '=' ∧ rest = [] then .ok [b64Byte1 s1 s2]
        else .error "illegal base64 data"
      else
        match charSextet c3 with
        | some s3 =>
          if c4 = '=' then
            if rest = [] then .ok [b64Byte1 s1 s2, b64Byte2 s2 s3]
            else .error "illegal base64 data"
          else
            match charSextet c4 with
            | some s4 =>
              match b64DecodeChars rest with
              | .ok bs => .ok (b64Byte1 s1 s2 :: b64Byte2 s2 s3 :: b64Byte3 s3 s4 :: bs)
              | .error e => .error e
            | none => .error "illegal base64 data"
        | none => .error "illegal base64 data"
    | _, _ => .error "illegal base64 data"
  | _ => .error "illegal base64 data: truncated input"

/-- Go `base64.StdEncoding.EncodeToString`, over character lists:
three input bytes become four alphabet characters, the final partial
quantum is padded with `=`. -/
def b64EncodeChars : Bytes → List Char
  | [] => []
  | [a] =>
    [sextetChar ⟨a.val / 4, by have := a.isLt; omega⟩,
     sextetChar ⟨(a.val % 4) * 16, by omega⟩, '=', '=']
  | [a, b] =>
    [sextetChar ⟨a.val / 4, by have := a.isLt; omega⟩,
     sextetChar ⟨(a.val % 4) * 16 + b.val / 16, by have := b.isLt; omega⟩,
     sextetChar ⟨(b.val % 16) * 4, by omega⟩, '=']
  | a :: b :: c :: rest =>
    sextetChar ⟨a.val / 4, by have := a.isLt; omega⟩ ::
    sextetChar ⟨(a.val % 4) * 16 + b.val / 16, by have := b.isLt; omega⟩ ::
    sextetChar ⟨(b.val % 16) * 4 + c.val / 64, by have := c.isLt; omega⟩ ::
    sextetChar ⟨c.val % 64, by omega⟩ :: b64EncodeChars rest

/-- Decoding one alphabet character recovers its index. -/
theorem charSextet_sextetChar : ∀ s : Fin 64, charSextet (sextetChar s) = some s := by
  decide

/-- No alphabet character is the padding character. -/
theorem sextetChar_ne_pad : ∀ s : Fin 64, sextetChar s ≠ '=' := by
  decide

/-- Base64 decoding inverts base64 encoding. -/
theorem b64DecodeChars_b64EncodeChars (bs : Bytes) :
    b64DecodeChars (b64EncodeChars bs) = .ok bs := by
  induction bs using b64EncodeChars.induct with
  | case1 => rfl
  | case2 a =>
    have ha := a.isLt
    simp only [b64EncodeChars, b64DecodeChars, charSextet_sextetChar]
    simp only [sextetChar_ne_pad, if_false, reduceIte, if_true, and_self, b64Byte1]
    congr 2
    apply Fin.ext
    simp
    omega
  | case3 a b =>
    have ha := a.isLt
    have hb := b.isLt
    simp only [b64EncodeChars, b64DecodeChars, charSextet_sextetChar]
    simp only [sextetChar_ne_pad, if_false, reduceIte, if_true, b64Byte1, b64Byte2]
    congr 2
    · apply Fin.ext; simp; omega
    congr 1
    apply Fin.ext
    simp
    omega
  | case4 a b c rest ih =>
    have ha := a.isLt
    have hb := b.isLt
    have hc := c.isLt
    simp only [b64EncodeChars, b64DecodeChars, charSextet_sextetChar]
    simp only [sextetChar_ne_pad, if_false, reduceIte, ih, b64Byte1, b64Byte2, b64Byte3]
    congr 2
    · apply Fin.ext; simp; omega
    congr 1
    · apply Fin.ext; simp; omega
    congr 1
    apply Fin.ext
    simp
    omega

/- ## Data model -/

/-- An opaque libp2p private-key handle (`crypto.PrivKey`); the code
observes it only through the collaborator functions in `Collab`. -/
structure PrivKey where
  handle : Nat
deriving DecidableEq, Repr

/-- An opaque libp2p public-key handle (`crypto.PubKey`). -/
structure PubKey where
  handle : Nat
deriving DecidableEq, Repr

/-- The `Identity` struct.  `peer.ID` is a string type in Go, so `ID`
is a `String`; `PrivateKey` is a nilable interface value, so an
`Option`; `Secret` is a nilable byte slice, `none` modelling nil. -/
structure Identity where
  ID : String
  PrivateKey : Option PrivKey
  Peername : String
  Secret : Option Bytes
deriving DecidableEq, Repr

/-- The `identityJSON` struct: the four string fields of the persisted
document. -/
structure identityJSON where
  ID : String
  Peername : String
  PrivateKey : String
  Secret : String
deriving DecidableEq, Repr

/-- Outcome of running a Go call that may return normally, return an
error, or panic at runtime. -/
inductive GoResult (α : Type) where
  | ok : α → GoResult α
  | err : String → GoResult α
  | panic : String → GoResult α
deriving DecidableEq, Repr

/-- The message of the Go runtime panic raised by calling a method on a
nil interface value. -/
def nilDerefMsg : String :=
  "runtime error: invalid memory address or nil pointer dereference"

/-- External collaborators consumed by the codec: the libp2p peer-id
string codec and private-key (un)marshalling.  The code under
verification is parametric in their behaviour; theorems state the
collaborator laws they need as hypotheses. -/
structure Collab where
  idB58Decode : String → Except String String
  idPretty : String → String
  unmarshalPrivateKey : Bytes → Except String PrivKey
  privKeyBytes : PrivKey → GoResult Bytes

/-- Raw bytes handed to `json.Unmarshal`: either a well-formed document
carrying the four fields, or malformed text on which unmarshalling
fails with the given message.  `json.MarshalIndent` of an
`identityJSON` (all-string fields) never fails and produces a
well-formed document. -/
inductive Raw where
  | wellFormed (j : identityJSON)
  | malformed (msg : String)
deriving DecidableEq, Repr

/-- Go `json.Unmarshal` into an `identityJSON`. -/
def jsonUnmarshal : Raw → Except String identityJSON
  | .wellFormed j => .ok j
  | .malformed msg => .error msg

/-- Go `json.MarshalIndent` of an `identityJSON`: never fails. -/
def jsonMarshalIndent (j : identityJSON) : Raw :=
  .wellFormed j

/-- Hostname resolution (`os.Hostname`): on failure the code falls back
to the empty string. -/
def resolveHostname : Except String String → String
  | .ok h => h
  | .error _ => ""

/- ## Generator (`Default`) -/

/-- Outcomes of the ambient environment and random collaborators during
one run of `Default`: hostname resolution, key-pair generation, peer-id
derivation, and `pnet.GenerateV1Bytes` (whose Go result type
`*[32]byte` guarantees 32 bytes). -/
structure GenOutcome where
  hostnameRes : Except String String
  genKeyPair : Except String (PrivKey × PubKey)
  idFromPublicKey : PubKey → Except String String
  generateV1Bytes : Except String { s : Bytes // s.length = 32 }

/-- Go `(*Identity).Default`: returns the mutated receiver and the
error result (`none` is a nil error). -/
def Default (g : GenOutcome) (id : Identity) : Identity × Option String :=
  let id0 := { id with Peername := resolveHostname g.hostnameRes }
  match g.genKeyPair with
  | .error e => (id0, some e)
  | .ok (priv, pub) =>
    match g.idFromPublicKey pub with
    | .error e => (id0, some e)
    | .ok pid =>
      let id1 := { id0 with ID := pid, PrivateKey := some priv }
      match g.generateV1Bytes with
      | .error e => (id1, some e)
      | .ok s => ({ id1 with Secret := some s.val }, none)

/- ## Validator -/

/-- Go `(*Identity).Validate`. -/
def Validate (id : Identity) : Option String :=
  if id.ID = "" then some "cluster.ID not set"
  else if id.PrivateKey = none then some "no cluster.private_key set"
  else none

/- ## Codec: decode (`LoadJSON`, `applyConfigJSON`) -/

/-- Modelled from the spec: `config.SetIfNotDefault` lives in this
repository (package `config`), which is not under `src/`.  Per the
spec, a field is applied "only if the decoded document actually
specifies a non-default value": a non-empty incoming string replaces
the target, an empty one leaves it untouched. -/
def setIfNotDefault (v : String) (target : String) : String :=
  if v = "" then target else v

/-- Go `(*Identity).applyConfigJSON`: field-by-field application onto
the receiver, returning the receiver state reached when the function
returns together with the error result. -/
def applyConfigJSON (c : Collab) (id : Identity) (jID : identityJSON) :
    Identity × Option String :=
  match c.idB58Decode jID.ID with
  | .error e => (id, some s!"error decoding cluster ID: {e}")
  | .ok pid =>
    let id1 := { id with ID := pid }
    let id2 := { id1 with Peername := setIfNotDefault jID.Peername id1.Peername }
    match b64DecodeChars jID.PrivateKey.data with
    | .error e => (id2, some s!"error decoding private_key: {e}")
    | .ok pkb =>
      match c.unmarshalPrivateKey pkb with
      | .error e => (id2, some s!"error parsing private_key ID: {e}")
      | .ok pKey =>
        let id3 := { id2 with PrivateKey := some pKey }
        match DecodeClusterSecret jID.Secret with
        | .error e => (id3, some s!"error loading cluster secret from config: {e}")
        | .ok clusterSecret =>
          let id4 := { id3 with Secret := clusterSecret }
          (id4, Validate id4)

/-- Go `(*Identity).LoadJSON`: unmarshal, set `Peername` to the
hostname, then apply the document. -/
def LoadJSON (c : Collab) (hostnameRes : Except String String) (id : Identity)
    (raw : Raw) : Identity × Option String :=
  match jsonUnmarshal raw with
  | .error e => (id, some e)
  | .ok jID =>
    let id1 := { id with Peername := resolveHostname hostnameRes }
    applyConfigJSON c id1 jID

/- ## Codec: encode (`ToJSON`, `toIdentityJSON`) -/

/-- Body of `toIdentityJSON` before the deferred `recover`: calling
`Bytes()` on a nil `PrivateKey` interface is a runtime panic, and the
collaborator call itself may return an error or panic. -/
def toIdentityJSONBody (c : Collab) (id : Identity) : GoResult identityJSON :=
  match id.PrivateKey with
  | none => .panic nilDerefMsg
  | some k =>
    match c.privKeyBytes k with
    | .panic m => .panic m
    | .err e => .err e
    | .ok pkeyBytes =>
      .ok { ID := c.idPretty id.ID
            Peername := id.Peername
            PrivateKey := String.mk (b64EncodeChars pkeyBytes)
            Secret := EncodeProtectorKey id.Secret }

/-- Go `(*Identity).toIdentityJSON`: the deferred `recover` converts a
panic into an ordinary returned error (`err = fmt.Errorf("%s", r)`). -/
def toIdentityJSON (c : Collab) (id : Identity) : Except String identityJSON :=
  match toIdentityJSONBody c id with
  | .ok j => .ok j
  | .err e => .error e
  | .panic m => .error m

/-- Go `(*Identity).ToJSON`: on a `toIdentityJSON` failure the named
result `raw` is never assigned, so the caller gets no output with the
error. -/
def ToJSON (c : Collab) (id : Identity) : Except String Raw :=
  match toIdentityJSON c id with
  | .error e => .error e
  | .ok jID => .ok (jsonMarshalIndent jID)

/- ## Overlay (`ApplyEnvVars`) -/

/-- The four `CLUSTER`-prefixed environment variables consulted by
`envconfig.Process`, `none` when unset. -/
structure Env where
  id : Option String
  peername : Option String
  privateKey : Option String
  secret : Option String

/-- One field of `envconfig.Process`: a present, non-empty variable
replaces the field, an unset or empty one leaves it untouched. -/
def envField (v : Option String) (cur : String) : String :=
  match v with
  | none => cur
  | some s => if s = "" then cur else s

/-- Model of `envconfig.Process "CLUSTER" jID` over the four string fields. -/
def envconfigProcess (env : Env) (jID : identityJSON) : identityJSON :=
  { ID := envField env.id jID.ID
    Peername := envField env.peername jID.Peername
    PrivateKey := envField env.privateKey jID.PrivateKey
    Secret := envField env.secret jID.Secret }

/-- Go `(*Identity).ApplyEnvVars`: re-encode, overlay the environment,
re-apply through `applyConfigJSON`. -/
def ApplyEnvVars (c : Collab) (env : Env) (id : Identity) :
    Identity × Option String :=
  match toIdentityJSON c id with
  | .error e => (id, some e)
  | .ok jID =>
    let jID2 := envconfigProcess env jID
    applyConfigJSON c id jID2

/- ## Concrete instances used by witnesses -/

/-- Canonical bytes of the example private key below. -/
def exKeyBytes : Bytes := [⟨5, by omega⟩]

/-- A concrete, law-abiding collaborator instance: one peer id
(`"pid1"`, pretty form `"QmPid"`) and one key (handle 1, canonical
bytes `exKeyBytes`); everything else fails, as the real collaborators
do on garbage. -/
def exCollab : Collab where
  idB58Decode s := if s = "QmPid" then .ok "pid1" else .error ("invalid base58: " ++ s)
  idPretty s := if s = "pid1" then "QmPid" else ""
  unmarshalPrivateKey bs := if bs = exKeyBytes then .ok ⟨1⟩ else .error "malformed key"
  privKeyBytes k := if k = ⟨1⟩ then .ok exKeyBytes else .err "unknown key"

/-- A collaborator whose key-byte extraction panics, for exercising the
recover path. -/
def panicCollab : Collab where
  idB58Decode _ := .error "unused"
  idPretty _ := ""
  unmarshalPrivateKey _ := .error "unused"
  privKeyBytes _ := .panic "boom"

/-- Concrete generation outcomes for a successful `Default` run. -/
def exGen : GenOutcome where
  hostnameRes := .ok "host1"
  genKeyPair := .ok (⟨1⟩, ⟨2⟩)
  idFromPublicKey _ := .ok "pid1"
  generateV1Bytes := .ok ⟨List.replicate 32 0, by simp⟩

/-- An arbitrary pre-existing receiver state. -/
def exStart : Identity := ⟨"old", none, "oldname", none⟩

/-- The identity produced by `Default exGen exStart`. -/
def exIdentity : Identity :=
  ⟨"pid1", some ⟨1⟩, "host1", some (List.replicate 32 0)⟩

/- ## Helper lemmas -/

/-- Hex round-trip through the string boundary, length 32: decoding the
encoding of a 32-byte secret returns exactly that non-nil slice. -/
theorem decodeSecret_encode_len32 (s : Bytes) (h : s.length = 32) :
    DecodeClusterSecret (EncodeProtectorKey (some s)) = .ok (some s) := by
  have hdec : hexDecodeChars (EncodeProtectorKey (some s)).data = .ok s := by
    simpa [EncodeProtectorKey] using hexDecodeChars_hexEncodeChars s
  simp [DecodeClusterSecret, hdec, h]

/-- Decoding the encoding of a length-0 secret returns the nil slice. -/
theorem decodeSecret_encode_len0 (s : Bytes) (h : s.length = 0) :
    DecodeClusterSecret (EncodeProtectorKey (some s)) = .ok none := by
  have hdec : hexDecodeChars (EncodeProtectorKey (some s)).data = .ok s := by
    simpa [EncodeProtectorKey] using hexDecodeChars_hexEncodeChars s
  simp [DecodeClusterSecret, hdec, h]

/-- Decoding the encoding of a nil secret returns the nil slice. -/
theorem decodeSecret_encode_none :
    DecodeClusterSecret (EncodeProtectorKey none) = .ok none := rfl

/-- Decoding the encoding of a secret of any other length fails with
the length-mismatch message. -/
theorem decodeSecret_encode_other (s : Bytes) (h0 : s.length ≠ 0) (h32 : s.length ≠ 32) :
    DecodeClusterSecret (EncodeProtectorKey (some s)) = .error (secretLenMsg s.length) := by
  have hdec : hexDecodeChars (EncodeProtectorKey (some s)).data = .ok s := by
    simpa [EncodeProtectorKey] using hexDecodeChars_hexEncodeChars s
  simp [DecodeClusterSecret, hdec, h0, h32]

/-- A successful `DecodeClusterSecret` yields nil or exactly 32 bytes. -/
theorem decodeClusterSecret_ok_len {hexSecret : String} {r : Option Bytes}
    (h : DecodeClusterSecret hexSecret = .ok r) :
    r = none ∨ ∃ s, r = some s ∧ s.length = 32 := by
  unfold DecodeClusterSecret at h
  split at h
  · exact absurd h (by simp)
  · rename_i secret heq
    split at h
    · left; exact (Except.ok.injEq _ _ ▸ h).symm ▸ rfl
    · split at h
      · rename_i h0 h32
        right
        refine ⟨secret, ?_, h32⟩
        cases h
        rfl
      · exact absurd h (by simp)

/-- Success condition of `Validate`: the id is non-empty and the key is
present. -/
theorem validate_none_iff (id : Identity) :
    Validate id = none ↔ (id.ID ≠ "" ∧ id.PrivateKey ≠ none) := by
  unfold Validate
  by_cases h1 : id.ID = "" <;> by_cases h2 : id.PrivateKey = none <;> simp [h1, h2]

/-- Computation of `applyConfigJSON` when the id parse fails: the
receiver is returned unchanged with the wrapped parse error. -/
theorem applyConfigJSON_badId (c : Collab) (id : Identity) (jID : identityJSON)
    (e : String) (h1 : c.idB58Decode jID.ID = .error e) :
    applyConfigJSON c id jID = (id, some s!"error decoding cluster ID: {e}") := by
  unfold applyConfigJSON
  rw [h1]

/-- Computation of `applyConfigJSON` when the private-key base64 text
is malformed: id and peername are already applied. -/
theorem applyConfigJSON_badB64 (c : Collab) (id : Identity) (jID : identityJSON)
    (pid e : String) (h1 : c.idB58Decode jID.ID = .ok pid)
    (h2 : b64DecodeChars jID.PrivateKey.data = .error e) :
    applyConfigJSON c id jID =
      (⟨pid, id.PrivateKey, setIfNotDefault jID.Peername id.Peername, id.Secret⟩,
       some s!"error decoding private_key: {e}") := by
  unfold applyConfigJSON
  rw [h1]
  dsimp only
  rw [h2]

/-- Computation of `applyConfigJSON` when the key bytes fail to parse:
id and peername are already applied. -/
theorem applyConfigJSON_badKey (c : Collab) (id : Identity) (jID : identityJSON)
    (pid : String) (pkb : Bytes) (e : String)
    (h1 : c.idB58Decode jID.ID = .ok pid)
    (h2 : b64DecodeChars jID.PrivateKey.data = .ok pkb)
    (h3 : c.unmarshalPrivateKey pkb = .error e) :
    applyConfigJSON c id jID =
      (⟨pid, id.PrivateKey, setIfNotDefault jID.Peername id.Peername, id.Secret⟩,
       some s!"error parsing private_key ID: {e}") := by
  unfold applyConfigJSON
  rw [h1]
  dsimp only
  rw [h2]
  dsimp only
  rw [h3]

/-- Computation of `applyConfigJSON` when the secret fails to decode:
id, peername and private key are already applied. -/
theorem applyConfigJSON_badSecret (c : Collab) (id : Identity) (jID : identityJSON)
    (pid : String) (pkb : Bytes) (pKey : PrivKey) (e : String)
    (h1 : c.idB58Decode jID.ID = .ok pid)
    (h2 : b64DecodeChars jID.PrivateKey.data = .ok pkb)
    (h3 : c.unmarshalPrivateKey pkb = .ok pKey)
    (h4 : DecodeClusterSecret jID.Secret = .error e) :
    applyConfigJSON c id jID =
      (⟨pid, some pKey, setIfNotDefault jID.Peername id.Peername, id.Secret⟩,
       some s!"error loading cluster secret from config: {e}") := by
  unfold applyConfigJSON
  rw [h1]
  dsimp only
  rw [h2]
  dsimp only
  rw [h3]
  dsimp only
  rw [h4]

/-- Computation of `applyConfigJSON` when every field decodes. -/
theorem applyConfigJSON_ok (c : Collab) (id : Identity) (jID : identityJSON)
    (pid : String) (pkb : Bytes) (pKey : PrivKey) (sec : Option Bytes)
    (h1 : c.idB58Decode jID.ID = .ok pid)
    (h2 : b64DecodeChars jID.PrivateKey.data = .ok pkb)
    (h3 : c.unmarshalPrivateKey pkb = .ok pKey)
    (h4 : DecodeClusterSecret jID.Secret = .ok sec) :
    applyConfigJSON c id jID =
      (⟨pid, some pKey, setIfNotDefault jID.Peername id.Peername, sec⟩,
       Validate ⟨pid, some pKey, setIfNotDefault jID.Peername id.Peername, sec⟩) := by
  unfold applyConfigJSON
  rw [h1]
  dsimp only
  rw [h2]
  dsimp only
  rw [h3]
  dsimp only
  rw [h4]

/-- Inversion of a successful `applyConfigJSON`: every decode step
succeeded and the result has the decoded fields. -/
theorem applyConfigJSON_ok_inv {c : Collab} {id i' : Identity} {jID : identityJSON}
    (h : applyConfigJSON c id jID = (i', none)) :
    ∃ pid pkb pKey sec,
      c.idB58Decode jID.ID = .ok pid ∧
      b64DecodeChars jID.PrivateKey.data = .ok pkb ∧
      c.unmarshalPrivateKey pkb = .ok pKey ∧
      DecodeClusterSecret jID.Secret = .ok sec ∧
      i' = ⟨pid, some pKey, setIfNotDefault jID.Peername id.Peername, sec⟩ := by
  cases h1 : c.idB58Decode jID.ID with
  | error e => rw [applyConfigJSON_badId c id jID e h1] at h; simp at h
  | ok pid =>
    cases h2 : b64DecodeChars jID.PrivateKey.data with
    | error e => rw [applyConfigJSON_badB64 c id jID pid e h1 h2] at h; simp at h
    | ok pkb =>
      cases h3 : c.unmarshalPrivateKey pkb with
      | error e => rw [applyConfigJSON_badKey c id jID pid pkb e h1 h2 h3] at h; simp at h
      | ok pKey =>
        cases h4 : DecodeClusterSecret jID.Secret with
        | error e =>
          rw [applyConfigJSON_badSecret c id jID pid pkb pKey e h1 h2 h3 h4] at h
          simp at h
        | ok sec =>
          rw [applyConfigJSON_ok c id jID pid pkb pKey sec h1 h2 h3 h4] at h
          injection h with hA hB
          exact ⟨pid, pkb, pKey, sec, rfl, rfl, h3, rfl, hA.symm⟩

/-- Unfolding of `LoadJSON` on a well-formed document: the hostname is written to
`Peername` first, then the document is applied. -/
theorem loadJSON_wellFormed (c : Collab) (hres : Except String String) (id : Identity)
    (jID : identityJSON) :
    LoadJSON c hres id (.wellFormed jID) =
      applyConfigJSON c { id with Peername := resolveHostname hres } jID := rfl

/-- Overwriting a field with its own current value is a no-op. -/
theorem setIfNotDefault_self (v : String) : setIfNotDefault v v = v := by
  unfold setIfNotDefault
  split <;> rfl

/-- Computation of a fully successful `Default` run. -/
theorem Default_ok (g : GenOutcome) (id : Identity) (priv : PrivKey) (pub : PubKey)
    (pid : String) (s : { s : Bytes // s.length = 32 })
    (h1 : g.genKeyPair = .ok (priv, pub))
    (h2 : g.idFromPublicKey pub = .ok pid)
    (h3 : g.generateV1Bytes = .ok s) :
    Default g id = (⟨pid, some priv, resolveHostname g.hostnameRes, some s.val⟩, none) := by
  unfold Default
  rw [h1]
  dsimp only
  rw [h2]
  dsimp only
  rw [h3]

/-- Inversion of a successful `Default` run: every collaborator
succeeded and the result carries exactly their outputs. -/
theorem Default_ok_inv {g : GenOutcome} {id i : Identity}
    (h : Default g id = (i, none)) :
    ∃ priv pub pid s,
      g.genKeyPair = .ok (priv, pub) ∧
      g.idFromPublicKey pub = .ok pid ∧
      g.generateV1Bytes = .ok s ∧
      i = ⟨pid, some priv, resolveHostname g.hostnameRes, some s.val⟩ := by
  unfold Default at h
  cases h1 : g.genKeyPair with
  | error e => simp [h1] at h
  | ok pr =>
    obtain ⟨priv, pub⟩ := pr
    simp only [h1] at h
    cases h2 : g.idFromPublicKey pub with
    | error e => simp [h2] at h
    | ok pid =>
      simp only [h2] at h
      cases h3 : g.generateV1Bytes with
      | error e => simp [h3] at h
      | ok s =>
        simp only [h3] at h
        injection h with hA hB
        exact ⟨priv, pub, pid, s, rfl, h2, rfl, hA.symm⟩

/-- Computation of `toIdentityJSON` when the key is present and its
bytes are extracted without fault. -/
theorem toIdentityJSON_ok (c : Collab) (id : Identity) (k : PrivKey) (kb : Bytes)
    (hk : id.PrivateKey = some k) (hkb : c.privKeyBytes k = .ok kb) :
    toIdentityJSON c id =
      .ok ⟨c.idPretty id.ID, id.Peername, String.mk (b64EncodeChars kb),
           EncodeProtectorKey id.Secret⟩ := by
  unfold toIdentityJSON toIdentityJSONBody
  rw [hk]
  dsimp only
  rw [hkb]

/-- An unset or empty environment variable leaves a field untouched. -/
theorem envField_noop {v : Option String} {cur : String}
    (h : v = none ∨ v = some "") : envField v cur = cur := by
  rcases h with rfl | rfl <;> simp [envField]

/-- With no variable present (or all empty), `envconfig.Process` is the
identity on the document. -/
theorem envconfigProcess_noop (env : Env) (jID : identityJSON)
    (h1 : env.id = none ∨ env.id = some "")
    (h2 : env.peername = none ∨ env.peername = some "")
    (h3 : env.privateKey = none ∨ env.privateKey = some "")
    (h4 : env.secret = none ∨ env.secret = some "") :
    envconfigProcess env jID = jID := by
  unfold envconfigProcess
  rw [envField_noop h1, envField_noop h2, envField_noop h3, envField_noop h4]

/- ## Claims -/

/-- C2: for a byte sequence `b` of length 0 or 32,
`DecodeClusterSecret (EncodeProtectorKey b)` succeeds and returns the
bytes of `b` unchanged (a length-0 result comes back as the nil slice,
whose byte content matches `b`); for any other length it fails with the message
reporting the actual and the expected (32) length; `EncodeProtectorKey`
is a total function and never fails. -/
theorem spec_c2_secret_codec (b : Bytes) :
    (b.length = 0 ∨ b.length = 32 →
      ∃ r, DecodeClusterSecret (EncodeProtectorKey (some b)) = .ok r ∧ r.getD [] = b)
  ∧ (b.length ≠ 0 → b.length ≠ 32 →
      DecodeClusterSecret (EncodeProtectorKey (some b)) = .error (secretLenMsg b.length)) := by
  constructor
  · rintro (h0 | h32)
    · have hb : b = [] := List.length_eq_zero.mp h0
      exact ⟨none, decodeSecret_encode_len0 b h0, hb.symm⟩
    · exact ⟨some b, decodeSecret_encode_len32 b h32, rfl⟩
  · exact decodeSecret_encode_other b

/-- C2 witness: the secret codec round-trips a concrete 32-byte secret
and rejects a concrete 1-byte secret with the length message. -/
theorem spec_c2_secret_codec_witness :
    (∃ r, DecodeClusterSecret (EncodeProtectorKey (some (List.replicate 32 0))) = .ok r ∧
       r.getD [] = List.replicate 32 0)
  ∧ DecodeClusterSecret (EncodeProtectorKey (some [0])) = .error (secretLenMsg 1) :=
  ⟨(spec_c2_secret_codec (List.replicate 32 0)).1 (Or.inr (by simp)),
   (spec_c2_secret_codec [0]).2 (by simp) (by simp)⟩

/-- C3: `Validate` fails exactly when the id is empty or the key is
nil; being `Option`-valued it reports at most one error per call; when
the id is empty the id error is reported (also when both fields are
missing), and the key error is reported only when the id is present. -/
theorem spec_c3_validate (id : Identity) :
    ((Validate id).isSome ↔ (id.ID = "" ∨ id.PrivateKey = none))
  ∧ (id.ID = "" → Validate id = some "cluster.ID not set")
  ∧ (id.ID ≠ "" → id.PrivateKey = none → Validate id = some "no cluster.private_key set") := by
  refine ⟨?_, ?_, ?_⟩
  · unfold Validate
    by_cases h1 : id.ID = "" <;> by_cases h2 : id.PrivateKey = none <;> simp [h1, h2]
  · intro h1
    unfold Validate
    simp [h1]
  · intro h1 h2
    unfold Validate
    simp [h1, h2]

/-- C3 witness: a doubly-missing identity reports the id error, and an
identity with only the key missing reports the key error. -/
theorem spec_c3_validate_witness :
    Validate ⟨"", none, "", none⟩ = some "cluster.ID not set" ∧
    Validate ⟨"x", none, "", none⟩ = some "no cluster.private_key set" :=
  ⟨(spec_c3_validate ⟨"", none, "", none⟩).2.1 rfl,
   (spec_c3_validate ⟨"x", none, "", none⟩).2.2 (by simp) rfl⟩

/-- C7: if extracting the canonical bytes of the private key during encode
panics, `ToJSON` returns the panic message as an ordinary error value
(the deferred `recover` fires) and produces no output. -/
theorem spec_c7_panic_recover (c : Collab) (id : Identity) (k : PrivKey) (m : String)
    (hk : id.PrivateKey = some k) (hp : c.privKeyBytes k = .panic m) :
    ToJSON c id = .error m := by
  unfold ToJSON toIdentityJSON toIdentityJSONBody
  rw [hk]
  dsimp only
  rw [hp]

/-- C7 witness: a collaborator that panics while extracting key bytes
makes `ToJSON` return the panic message as an error. -/
theorem spec_c7_panic_recover_witness :
    ToJSON panicCollab ⟨"pid1", some ⟨1⟩, "p", none⟩ = .error "boom" :=
  spec_c7_panic_recover panicCollab ⟨"pid1", some ⟨1⟩, "p", none⟩ ⟨1⟩ "boom" rfl rfl

/-- C8: on a nil `PrivateKey`, the method call inside `toIdentityJSON`
is a nil-interface dereference panic, the deferred `recover` converts
it into a returned error, and `ToJSON` returns that error instead of
propagating the panic. -/
theorem spec_c8_nil_key (c : Collab) (idStr pn : String) (sec : Option Bytes) :
    ToJSON c ⟨idStr, none, pn, sec⟩ = .error nilDerefMsg := rfl

/-- A document whose id field is not a valid peer-identifier encoding. -/
def c5BadDoc : identityJSON := ⟨"not-a-valid-id", "", "", ""⟩

/-- The id parse error produced by `exCollab` on the id of `c5BadDoc`. -/
def c5IdErr : String := "invalid base58: " ++ "not-a-valid-id"

/-- The truncated-input base64 decode error. -/
def b64TruncErr : String := "illegal base64 data: truncated input"

/-- The unmarshal error of `exCollab` on unknown key bytes. -/
def badKeyErr : String := "malformed key"

/-- C5 counterexample: decoding a document with an invalid id does fail
with the id parse error, but the receiver is not left untouched — its
`Peername` has already been overwritten with the hostname, refuting the
claim that no field (including `Peername`) is modified by the failed
decode. -/
theorem spec_c5_counterexample :
    ((LoadJSON exCollab (.ok "myhost") exStart (.wellFormed c5BadDoc)).2 ≠ none)
  ∧ (LoadJSON exCollab (.ok "myhost") exStart (.wellFormed c5BadDoc)).1.Peername ≠
      exStart.Peername := by
  constructor <;> decide

/-- C5 (amended): on a document whose id is not a valid
peer-identifier encoding, `LoadJSON` fails with the wrapped parse
error; `ID`, `PrivateKey` and `Secret` are untouched, but `Peername`
has already been set to the machine hostname (as on every `LoadJSON`
call) before the id parse. -/
theorem spec_c5_bad_id_frame (c : Collab) (hres : Except String String) (j : Identity)
    (doc : identityJSON) (e : String) (hid : c.idB58Decode doc.ID = .error e) :
    LoadJSON c hres j (.wellFormed doc) =
      ({ j with Peername := resolveHostname hres },
       some s!"error decoding cluster ID: {e}") := by
  rw [loadJSON_wellFormed]
  exact applyConfigJSON_badId c { j with Peername := resolveHostname hres } doc e hid

/-- C5 witness: the concrete bad-id document fails with the parse error
while only `Peername` (now the hostname) differs from the receiver. -/
theorem spec_c5_bad_id_frame_witness :
    LoadJSON exCollab (.ok "myhost") exStart (.wellFormed c5BadDoc) =
      ({ exStart with Peername := resolveHostname (.ok "myhost") },
       some s!"error decoding cluster ID: {c5IdErr}") :=
  spec_c5_bad_id_frame exCollab (.ok "myhost") exStart c5BadDoc c5IdErr rfl

/-- C9: `LoadJSON` is not atomic on its receiver.  On a well-formed
document, whichever later step fails, the receiver keeps all mutations
already performed: `Peername` is set to the hostname before field
application (and then follows the set-if-not-default rule once the id
has decoded), and a private-key or secret failure leaves the freshly
decoded `ID` (and, for a secret failure, the freshly parsed
`PrivateKey`) in place. -/
theorem spec_c9_not_atomic (c : Collab) (hres : Except String String) (j : Identity)
    (doc : identityJSON) :
    (∀ e, c.idB58Decode doc.ID = .error e →
       LoadJSON c hres j (.wellFormed doc) =
         ({ j with Peername := resolveHostname hres },
          some s!"error decoding cluster ID: {e}"))
  ∧ (∀ pid e, c.idB58Decode doc.ID = .ok pid →
       b64DecodeChars doc.PrivateKey.data = .error e →
       LoadJSON c hres j (.wellFormed doc) =
         (⟨pid, j.PrivateKey, setIfNotDefault doc.Peername (resolveHostname hres), j.Secret⟩,
          some s!"error decoding private_key: {e}"))
  ∧ (∀ pid pkb e, c.idB58Decode doc.ID = .ok pid →
       b64DecodeChars doc.PrivateKey.data = .ok pkb →
       c.unmarshalPrivateKey pkb = .error e →
       LoadJSON c hres j (.wellFormed doc) =
         (⟨pid, j.PrivateKey, setIfNotDefault doc.Peername (resolveHostname hres), j.Secret⟩,
          some s!"error parsing private_key ID: {e}"))
  ∧ (∀ pid pkb pKey e, c.idB58Decode doc.ID = .ok pid →
       b64DecodeChars doc.PrivateKey.data = .ok pkb →
       c.unmarshalPrivateKey pkb = .ok pKey →
       DecodeClusterSecret doc.Secret = .error e →
       LoadJSON c hres j (.wellFormed doc) =
         (⟨pid, some pKey, setIfNotDefault doc.Peername (resolveHostname hres), j.Secret⟩,
          some s!"error loading cluster secret from config: {e}")) := by
  refine ⟨?_, ?_, ?_, ?_⟩
  · intro e h1
    rw [loadJSON_wellFormed]
    exact applyConfigJSON_badId c _ doc e h1
  · intro pid e h1 h2
    rw [loadJSON_wellFormed]
    exact applyConfigJSON_badB64 c _ doc pid e h1 h2
  · intro pid pkb e h1 h2 h3
    rw [loadJSON_wellFormed]
    exact applyConfigJSON_badKey c _ doc pid pkb e h1 h2 h3
  · intro pid pkb pKey e h1 h2 h3 h4
    rw [loadJSON_wellFormed]
    exact applyConfigJSON_badSecret c _ doc pid pkb pKey e h1 h2 h3 h4

/-- Document whose private-key field is not base64. -/
def c9DocBadB64 : identityJSON := ⟨"QmPid", "pn", "!", ""⟩

/-- Document whose key bytes do not parse as a private key. -/
def c9DocBadKey : identityJSON := ⟨"QmPid", "pn", "Bg==", ""⟩

/-- Document whose secret is one byte instead of 32. -/
def c9DocBadSecret : identityJSON := ⟨"QmPid", "pn", "BQ==", "00"⟩

/-- C9 witness: concrete failing documents for each of the four late
failure points, each leaving the earlier mutations in the receiver. -/
theorem spec_c9_not_atomic_witness :
    (LoadJSON exCollab (.ok "h") exStart (.wellFormed c5BadDoc) =
      ({ exStart with Peername := resolveHostname (.ok "h") },
       some s!"error decoding cluster ID: {c5IdErr}"))
  ∧ (LoadJSON exCollab (.ok "h") exStart (.wellFormed c9DocBadB64) =
      (⟨"pid1", exStart.PrivateKey,
          setIfNotDefault c9DocBadB64.Peername (resolveHostname (.ok "h")), exStart.Secret⟩,
       some s!"error decoding private_key: {b64TruncErr}"))
  ∧ (LoadJSON exCollab (.ok "h") exStart (.wellFormed c9DocBadKey) =
      (⟨"pid1", exStart.PrivateKey,
          setIfNotDefault c9DocBadKey.Peername (resolveHostname (.ok "h")), exStart.Secret⟩,
       some s!"error parsing private_key ID: {badKeyErr}"))
  ∧ (LoadJSON exCollab (.ok "h") exStart (.wellFormed c9DocBadSecret) =
      (⟨"pid1", some ⟨1⟩,
          setIfNotDefault c9DocBadSecret.Peername (resolveHostname (.ok "h")), exStart.Secret⟩,
       some s!"error loading cluster secret from config: {secretLenMsg 1}")) :=
  ⟨(spec_c9_not_atomic exCollab (.ok "h") exStart c5BadDoc).1 c5IdErr rfl,
   (spec_c9_not_atomic exCollab (.ok "h") exStart c9DocBadB64).2.1 "pid1" b64TruncErr rfl rfl,
   (spec_c9_not_atomic exCollab (.ok "h") exStart c9DocBadKey).2.2.1 "pid1" [6] badKeyErr
     rfl rfl rfl,
   (spec_c9_not_atomic exCollab (.ok "h") exStart c9DocBadSecret).2.2.2 "pid1" exKeyBytes
     ⟨1⟩ (secretLenMsg 1) rfl rfl rfl rfl⟩

/-- C10: after any successful `LoadJSON` and after any successful
`ApplyEnvVars`, the `Secret` is nil or exactly 32 bytes, and a non-nil
empty secret cannot result from a decode because `DecodeClusterSecret`
maps the empty string to the nil slice. -/
theorem spec_c10_secret_invariant :
    (∀ (c : Collab) (hres : Except String String) (j i' : Identity) (raw : Raw),
        LoadJSON c hres j raw = (i', none) →
        i'.Secret = none ∨ ∃ s, i'.Secret = some s ∧ s.length = 32)
  ∧ (∀ (c : Collab) (env : Env) (j i' : Identity),
        ApplyEnvVars c env j = (i', none) →
        i'.Secret = none ∨ ∃ s, i'.Secret = some s ∧ s.length = 32)
  ∧ DecodeClusterSecret "" = .ok none := by
  refine ⟨?_, ?_, rfl⟩
  · intro c hres j i' raw h
    cases raw with
    | malformed m => simp [LoadJSON, jsonUnmarshal] at h
    | wellFormed jID =>
      rw [loadJSON_wellFormed] at h
      obtain ⟨pid, pkb, pKey, sec, _, _, _, h4, hEq⟩ := applyConfigJSON_ok_inv h
      subst hEq
      exact decodeClusterSecret_ok_len h4
  · intro c env j i' h
    unfold ApplyEnvVars at h
    cases ht : toIdentityJSON c j with
    | error e => simp [ht] at h
    | ok jID =>
      simp only [ht] at h
      obtain ⟨pid, pkb, pKey, sec, _, _, _, h4, hEq⟩ := applyConfigJSON_ok_inv h
      subst hEq
      exact decodeClusterSecret_ok_len h4

/-- Document for the C10 witness: valid id and key, empty secret. -/
def c10Doc : identityJSON := ⟨"QmPid", "p", "BQ==", ""⟩

/-- C10 witness: a concrete successful `LoadJSON` whose result has a
nil secret. -/
theorem spec_c10_secret_invariant_witness :
    (⟨"pid1", some ⟨1⟩, "p", none⟩ : Identity).Secret = none ∨
      ∃ s, (⟨"pid1", some ⟨1⟩, "p", none⟩ : Identity).Secret = some s ∧ s.length = 32 :=
  spec_c10_secret_invariant.1 exCollab (.ok "h") exStart ⟨"pid1", some ⟨1⟩, "p", none⟩
    (.wellFormed c10Doc) (by decide)

/-- C4: whenever the key-pair, peer-id and secret collaborators all
succeed, the identity produced by `Default` passes `Validate` and its
secret is exactly 32 bytes.  The hypothesis `hpid` is the peer-id
guarantee of the peer-id collaborator that a derived identifier is non-empty (a
multihash string always is). -/
theorem spec_c4_generation_valid (g : GenOutcome) (id0 i : Identity)
    (hpid : ∀ pub pid, g.idFromPublicKey pub = .ok pid → pid ≠ "")
    (h : Default g id0 = (i, none)) :
    Validate i = none ∧ ∃ s, i.Secret = some s ∧ s.length = 32 := by
  obtain ⟨priv, pub, pid, s, h1, h2, h3, hi⟩ := Default_ok_inv h
  subst hi
  refine ⟨?_, s.val, rfl, s.property⟩
  rw [validate_none_iff]
  exact ⟨hpid pub pid h2, by simp⟩

/-- C4 witness: a concrete successful generation run is valid with a
32-byte secret. -/
theorem spec_c4_generation_valid_witness :
    Validate exIdentity = none ∧ ∃ s, exIdentity.Secret = some s ∧ s.length = 32 :=
  spec_c4_generation_valid exGen exStart exIdentity
    (by
      intro pub pid h
      injection h with h1
      subst h1
      decide)
    rfl

/-- C1: an identity produced by a successful `Default` run round-trips
through `LoadJSON ∘ ToJSON` on the same machine: the decoded identity
has the same `ID`, a private key with the same canonical bytes, the
same `Secret`, and the same `Peername` (the default-hostname rule
rewrites `Peername` to the same hostname).  Hypotheses `hkb`/`hunm`/
`hkb2`/`hb58` are the collaborator laws: key marshalling round-trips on
canonical bytes and the peer-id codec round-trips on derived ids, which
are non-empty (`hpid`). -/
theorem spec_c1_roundtrip (g : GenOutcome) (c : Collab) (id0 j i : Identity)
    (k k2 : PrivKey) (kb : Bytes)
    (hdef : Default g id0 = (i, none))
    (hk : i.PrivateKey = some k)
    (hkb : c.privKeyBytes k = .ok kb)
    (hunm : c.unmarshalPrivateKey kb = .ok k2)
    (hkb2 : c.privKeyBytes k2 = .ok kb)
    (hb58 : c.idB58Decode (c.idPretty i.ID) = .ok i.ID)
    (hpid : i.ID ≠ "") :
    ∃ raw i',
      ToJSON c i = .ok raw ∧
      LoadJSON c g.hostnameRes j raw = (i', none) ∧
      i'.ID = i.ID ∧
      (∃ k', i'.PrivateKey = some k' ∧ c.privKeyBytes k' = .ok kb) ∧
      i'.Secret = i.Secret ∧
      i'.Peername = i.Peername := by
  obtain ⟨priv, pub, pid, s, h1, h2, h3, hi⟩ := Default_ok_inv hdef
  subst hi
  have hpk : priv = k := by
    have hx : some priv = some k := hk
    injection hx
  subst hpk
  have hToJ : ToJSON c ⟨pid, some priv, resolveHostname g.hostnameRes, some s.val⟩ =
      .ok (.wellFormed ⟨c.idPretty pid, resolveHostname g.hostnameRes,
           String.mk (b64EncodeChars kb), EncodeProtectorKey (some s.val)⟩) := by
    unfold ToJSON
    rw [toIdentityJSON_ok c _ priv kb rfl hkb]
    rfl
  have hval : Validate ⟨pid, some k2, resolveHostname g.hostnameRes, some s.val⟩ = none := by
    rw [validate_none_iff]
    exact ⟨hpid, by simp⟩
  have step2 :
      applyConfigJSON c { j with Peername := resolveHostname g.hostnameRes }
        ⟨c.idPretty pid, resolveHostname g.hostnameRes,
         String.mk (b64EncodeChars kb), EncodeProtectorKey (some s.val)⟩ =
      (⟨pid, some k2,
         setIfNotDefault (resolveHostname g.hostnameRes) (resolveHostname g.hostnameRes),
         some s.val⟩,
       Validate ⟨pid, some k2,
         setIfNotDefault (resolveHostname g.hostnameRes) (resolveHostname g.hostnameRes),
         some s.val⟩) :=
    applyConfigJSON_ok c _ _ pid kb k2 (some s.val) hb58
      (b64DecodeChars_b64EncodeChars kb) hunm
      (decodeSecret_encode_len32 s.val s.property)
  have hload : LoadJSON c g.hostnameRes j
      (.wellFormed ⟨c.idPretty pid, resolveHostname g.hostnameRes,
        String.mk (b64EncodeChars kb), EncodeProtectorKey (some s.val)⟩) =
      (⟨pid, some k2, resolveHostname g.hostnameRes, some s.val⟩, none) := by
    rw [loadJSON_wellFormed, step2, setIfNotDefault_self, hval]
  exact ⟨_, _, hToJ, hload, rfl, ⟨k2, rfl, hkb2⟩, rfl, rfl⟩

/-- C1 witness: a concrete generated identity round-trips through the
codec with identical id, key bytes, secret and peername. -/
theorem spec_c1_roundtrip_witness :
    ∃ raw i',
      ToJSON exCollab exIdentity = .ok raw ∧
      LoadJSON exCollab exGen.hostnameRes exStart raw = (i', none) ∧
      i'.ID = exIdentity.ID ∧
      (∃ k', i'.PrivateKey = some k' ∧ exCollab.privKeyBytes k' = .ok exKeyBytes) ∧
      i'.Secret = exIdentity.Secret ∧
      i'.Peername = exIdentity.Peername :=
  spec_c1_roundtrip exGen exCollab exStart exStart exIdentity ⟨1⟩ ⟨1⟩ exKeyBytes
    rfl rfl rfl rfl rfl rfl (by decide)

/-- C6: on a valid identity whose secret respects the nil-or-32-bytes
invariant, `ApplyEnvVars` with no environment variable present (or all
empty) succeeds and is an identity round-trip: same `ID`, same
`Peername`, same `Secret`, and a private key with the same canonical
bytes (`hkb2` pairs the reparsed key with the original bytes). -/
theorem spec_c6_env_noop (c : Collab) (env : Env) (id : Identity)
    (k k2 : PrivKey) (kb : Bytes)
    (hvalid : Validate id = none)
    (hsec : id.Secret = none ∨ ∃ s, id.Secret = some s ∧ s.length = 32)
    (hk : id.PrivateKey = some k)
    (hkb : c.privKeyBytes k = .ok kb)
    (hunm : c.unmarshalPrivateKey kb = .ok k2)
    (hkb2 : c.privKeyBytes k2 = .ok kb)
    (hb58 : c.idB58Decode (c.idPretty id.ID) = .ok id.ID)
    (he1 : env.id = none ∨ env.id = some "")
    (he2 : env.peername = none ∨ env.peername = some "")
    (he3 : env.privateKey = none ∨ env.privateKey = some "")
    (he4 : env.secret = none ∨ env.secret = some "") :
    ApplyEnvVars c env id = (⟨id.ID, some k2, id.Peername, id.Secret⟩, none) ∧
    c.privKeyBytes k2 = .ok kb := by
  have hID : id.ID ≠ "" := ((validate_none_iff id).mp hvalid).1
  have hsecdec : DecodeClusterSecret (EncodeProtectorKey id.Secret) = .ok id.Secret := by
    rcases hsec with h | ⟨s, hs, hlen⟩
    · rw [h]
      exact decodeSecret_encode_none
    · rw [hs]
      exact decodeSecret_encode_len32 s hlen
  have hvalnone : Validate ⟨id.ID, some k2, id.Peername, id.Secret⟩ = none := by
    rw [validate_none_iff]
    exact ⟨hID, by simp⟩
  have step1 : ApplyEnvVars c env id =
      applyConfigJSON c id (envconfigProcess env
        ⟨c.idPretty id.ID, id.Peername, String.mk (b64EncodeChars kb),
         EncodeProtectorKey id.Secret⟩) := by
    unfold ApplyEnvVars
    rw [toIdentityJSON_ok c id k kb hk hkb]
  have step3 : applyConfigJSON c id
      (⟨c.idPretty id.ID, id.Peername, String.mk (b64EncodeChars kb),
        EncodeProtectorKey id.Secret⟩ : identityJSON) =
      (⟨id.ID, some k2, setIfNotDefault id.Peername id.Peername, id.Secret⟩,
       Validate ⟨id.ID, some k2, setIfNotDefault id.Peername id.Peername, id.Secret⟩) :=
    applyConfigJSON_ok c id _ id.ID kb k2 id.Secret hb58
      (b64DecodeChars_b64EncodeChars kb) hunm hsecdec
  refine ⟨?_, hkb2⟩
  rw [step1, envconfigProcess_noop env _ he1 he2 he3 he4, step3,
    setIfNotDefault_self, hvalnone]

/-- C6 witness: a concrete valid identity is unchanged by
`ApplyEnvVars` under an empty environment. -/
theorem spec_c6_env_noop_witness :
    ApplyEnvVars exCollab ⟨none, none, none, none⟩ exIdentity =
      (⟨exIdentity.ID, some ⟨1⟩, exIdentity.Peername, exIdentity.Secret⟩, none) ∧
    exCollab.privKeyBytes ⟨1⟩ = .ok exKeyBytes :=
  spec_c6_env_noop exCollab ⟨none, none, none, none⟩ exIdentity ⟨1⟩ ⟨1⟩ exKeyBytes
    rfl (Or.inr ⟨List.replicate 32 0, rfl, by simp⟩) rfl rfl rfl rfl rfl
    (Or.inl rfl) (Or.inl rfl) (Or.inl rfl) (Or.inl rfl)

end identity
